import Mathlib

/-!
Shallow embedding of `rally_openstack/task/scenarios/neutron/utils.py`
(scenario-helper layer over the Neutron networking API).

Python values are modelled by `Val`; Python dictionaries by association
lists (`Dict`) with Python's semantics: assignment to an existing key
replaces the value in place, assignment to a fresh key appends at the end,
`pop`/`del` remove the binding.  Python exceptions are the inductive `Exc`
and exception flow is the `Except Exc` monad.  External collaborators
(the injected neutron service / client) are function parameters, so each
embedded method is a function of the service it forwards to.  Methods that
mutate a caller-owned (positional) dictionary argument return the final
state of that dictionary alongside the result.
-/

/-- Python values: `None`, strings, integers, booleans, dictionaries
(string keys, insertion ordered) and lists. -/
inductive Val where
  | none
  | str (s : String)
  | num (n : Int)
  | bool (b : Bool)
  | dict (entries : List (String × Val))
  | list (elems : List Val)

/-- A Python dictionary with string keys: an insertion-ordered association
list.  Well-formed dictionaries have no duplicate keys (`Dict.WF`). -/
def Dict : Type := List (String × Val)

/-- `d[k]` as an option: the value bound to `k`, if any. -/
def Dict.lookup : Dict → String → Option Val
  | [], _ => Option.none
  | (k, v) :: rest, key => if k = key then some v else Dict.lookup rest key

/-- Python `k in d`. -/
def Dict.hasKey (d : Dict) (k : String) : Bool :=
  (Dict.lookup d k).isSome

/-- Python `d[k] = v`: replace in place if `k` is bound, else append. -/
def Dict.insert : Dict → String → Val → Dict
  | [], key, val => [(key, val)]
  | (k, v) :: rest, key, val =>
      if k = key then (k, val) :: rest
      else (k, v) :: Dict.insert rest key val

/-- Python `d.pop(k, default)` / `del d[k]`, the dictionary part: remove
the binding of `k`. -/
def Dict.erase : Dict → String → Dict
  | [], _ => []
  | (k, v) :: rest, key =>
      if k = key then Dict.erase rest key
      else (k, v) :: Dict.erase rest key

/-- Python `d.update(other)`: assign every binding of `other` into `d`,
in order. -/
def Dict.updateWith (d other : Dict) : Dict :=
  other.foldl (fun acc kv => Dict.insert acc kv.1 kv.2) d

/-- The keys of the dictionary, in order. -/
def Dict.keys (d : Dict) : List String :=
  d.map Prod.fst

/-- A real Python dictionary never binds a key twice. -/
def Dict.WF (d : Dict) : Prop :=
  (Dict.keys d).Nodup

/-- Python / rally exceptions that the embedded code can raise, catch or
forward.  `apiError` stands for an arbitrary error raised by the wrapped
client library, carrying an optional `status_code` attribute. -/
inductive Exc where
  | getResourceFailure (resource : Val) (err : Option Exc)
  | getResourceNotFound (resource : Val)
  | notFoundException (message : String)
  | timeoutException
  | keyError (key : String)
  | typeError (msg : String)
  | zeroDivisionError
  | apiError (statusCode : Option Int) (tag : String)

/-- Whether an exception is (an instance of a subclass of) rally's
`GetResourceFailure`; in rally `GetResourceNotFound` subclasses it, so an
`except GetResourceFailure` clause catches both. -/
def Exc.isGetResourceFailureClass : Exc → Bool
  | .getResourceFailure _ _ => true
  | .getResourceNotFound _ => true
  | _ => false

/-- Python `getattr(e, "status_code", 400)`: only errors from the wrapped
client carry a `status_code` attribute. -/
def Exc.statusCodeAttr : Exc → Int
  | .apiError (some n) _ => n
  | _ => 400

/-- Python `obj[k]` on a value: raises `TypeError` when `obj` is not a
dictionary and `KeyError` when the key is unbound. -/
def Val.getItem : Val → String → Except Exc Val
  | .dict d, k =>
      match Dict.lookup d k with
      | some v => .ok v
      | Option.none => .error (.keyError k)
  | _, _ => .error (.typeError "object is not subscriptable")

/- ### Dictionary lemmas -/

theorem Dict.lookup_insert_self (d : Dict) (k : String) (v : Val) :
    Dict.lookup (Dict.insert d k v) k = some v := by
  induction d with
  | nil => simp [Dict.insert, Dict.lookup]
  | cons kv rest ih =>
      by_cases h : kv.1 = k
      · simp [Dict.insert, Dict.lookup, h]
      · simp [Dict.insert, Dict.lookup, h, ih]

theorem Dict.lookup_insert_ne (d : Dict) (k k' : String) (v : Val)
    (h : k ≠ k') : Dict.lookup (Dict.insert d k v) k' = Dict.lookup d k' := by
  induction d with
  | nil => simp [Dict.insert, Dict.lookup, h]
  | cons kv rest ih =>
      by_cases hk : kv.1 = k
      · simp [Dict.insert, Dict.lookup, hk, h]
      · by_cases hk' : kv.1 = k'
        · simp [Dict.insert, Dict.lookup, hk, hk', Ne.symm h]
        · simp [Dict.insert, Dict.lookup, hk, hk', ih]

theorem Dict.lookup_erase_self (d : Dict) (k : String) :
    Dict.lookup (Dict.erase d k) k = Option.none := by
  induction d with
  | nil => simp [Dict.erase, Dict.lookup]
  | cons kv rest ih =>
      by_cases h : kv.1 = k
      · simp [Dict.erase, Dict.lookup, h, ih]
      · simp [Dict.erase, Dict.lookup, h, ih]

theorem Dict.lookup_erase_ne (d : Dict) (k k' : String) (h : k ≠ k') :
    Dict.lookup (Dict.erase d k) k' = Dict.lookup d k' := by
  induction d with
  | nil => simp [Dict.erase, Dict.lookup]
  | cons kv rest ih =>
      by_cases hk : kv.1 = k
      · simp [Dict.erase, Dict.lookup, hk, h, ih]
      · by_cases hk' : kv.1 = k'
        · simp [Dict.erase, Dict.lookup, hk, hk', Ne.symm h]
        · simp [Dict.erase, Dict.lookup, hk, hk', ih]

theorem Dict.lookup_eq_none_of_not_mem_keys (d : Dict) (k : String)
    (h : k ∉ Dict.keys d) : Dict.lookup d k = Option.none := by
  induction d with
  | nil => simp [Dict.lookup]
  | cons kv rest ih =>
      have hcons : k ∉ kv.1 :: Dict.keys rest := h
      have h1 : ¬ (k = kv.1) := fun hk => hcons (List.mem_cons.mpr (Or.inl hk))
      have h2 : k ∉ Dict.keys rest := fun hk => hcons (List.mem_cons.mpr (Or.inr hk))
      simp [Dict.lookup, Ne.symm h1, ih h2]

theorem Dict.lookup_updateWith (d other : Dict) (hwf : Dict.WF other)
    (k : String) :
    Dict.lookup (Dict.updateWith d other) k =
      match Dict.lookup other k with
      | some v => some v
      | Option.none => Dict.lookup d k := by
  induction other generalizing d with
  | nil => simp [Dict.updateWith, Dict.lookup]
  | cons kv rest ih =>
      obtain ⟨k', v'⟩ := kv
      have hwf' : Dict.WF rest := by
        simpa [Dict.WF, Dict.keys] using (List.Nodup.of_cons (by
          simpa [Dict.WF, Dict.keys] using hwf))
      have hk'rest : k' ∉ Dict.keys rest := by
        have := (by simpa [Dict.WF, Dict.keys] using hwf :
          (k' :: rest.map Prod.fst).Nodup)
        simpa [Dict.keys] using (List.nodup_cons.mp this).1
      have hstep : Dict.updateWith d ((k', v') :: rest) =
          Dict.updateWith (Dict.insert d k' v') rest := by
        simp [Dict.updateWith, List.foldl_cons]
      rw [hstep, ih _ hwf']
      by_cases h : k' = k
      · subst h
        rw [Dict.lookup_eq_none_of_not_mem_keys rest k' hk'rest]
        simp [Dict.lookup, Dict.lookup_insert_self]
      · simp only [Dict.lookup, if_neg h]
        cases hrest : Dict.lookup rest k with
        | none => simp [Dict.lookup_insert_ne d k' k v' h]
        | some v => simp

/- ### Embedded methods

Each method of `NeutronScenario` / `NeutronBaseScenario` becomes a Lean
function.  The injected neutron service (`self.neutron.*`) and the raw
client (`self.clients("neutron").*`, `self.admin_clients("neutron").*`)
are function parameters (`svc_*`); `self.generate_random_name()` is the
parameter `gen_name`, holding the name the generator produced for this
call.  Keyword-argument dictionaries (`**kwargs`) are fresh dictionaries;
positional dictionary arguments are caller-owned, and methods that mutate
one return its final state as the second component. -/

/-- `Val.inStrList v l` is Python `v in l` for a list of strings `l`:
true exactly when `v` is the string of one of the elements. -/
def Val.inStrList (v : Val) (l : List String) : Bool :=
  match v with
  | .str s => l.contains s
  | _ => false

namespace NeutronScenario

def LB_METHOD : String := "ROUND_ROBIN"
def LB_PROTOCOL : String := "HTTP"
def LB_PROTOCOL_PORT : Int := 80
def HM_TYPE : String := "PING"
def HM_MAX_RETRIES : Int := 3
def HM_DELAY : Int := 20
def HM_TIMEOUT : Int := 10

/-- `NeutronScenario._get_network_id`: `try: return
self.neutron.find_network(network)["id"] except exceptions.GetResourceFailure:
raise exceptions.NotFoundException(message="Network %s not found." % network)`.
The `except` clause catches the `GetResourceFailure` class (which
`GetResourceNotFound` subclasses); everything else propagates. -/
def get_network_id (find_network : String → Except Exc Val)
    (network : String) : Except Exc Val :=
  match
    (match find_network network with
     | .ok d => Val.getItem d "id"
     | .error e => .error e) with
  | .ok v => .ok v
  | .error e =>
      if e.isGetResourceFailureClass then
        .error (.notFoundException ("Network " ++ network ++ " not found."))
      else .error e

/-- `NeutronScenario._create_network`: pops `"name"` from the caller's
`network_create_args`, forwards the rest to `neutron.create_network` and
wraps the result as `{"network": ...}`.  Second component: the final state
of the caller-owned `network_create_args`. -/
def create_network (svc_create_network : Dict → Except Exc Val)
    (network_create_args : Dict) : Except Exc Val × Dict :=
  let args := Dict.erase network_create_args "name"
  match svc_create_network args with
  | .ok net => (.ok (Val.dict [("network", net)]), args)
  | .error e => (.error e, args)

/-- `NeutronScenario._update_network`: assigns a generated random name into
the caller's `network_update_args`, then forwards
`neutron.update_network(network["network"]["id"], **network_update_args)`
and wraps the result as `{"network": ...}`.  Second component: the final
state of the caller-owned `network_update_args`. -/
def update_network (gen_name : String)
    (svc_update_network : Val → Dict → Except Exc Val)
    (network : Val) (network_update_args : Dict) : Except Exc Val × Dict :=
  let args := Dict.insert network_update_args "name" (Val.str gen_name)
  match
    (match Val.getItem network "network" with
     | .error e => (.error e : Except Exc Val)
     | .ok n =>
         match Val.getItem n "id" with
         | .error e => .error e
         | .ok nid => svc_update_network nid args) with
  | .ok net => (.ok (Val.dict [("network", net)]), args)
  | .error e => (.error e, args)

/-- `NeutronScenario._show_network`: forwards
`neutron.get_network(network["network"]["id"], **kwargs)` and wraps the
result as `{"network": ...}`. -/
def show_network (svc_get_network : Val → Dict → Except Exc Val)
    (network : Val) (kwargs : Dict) : Except Exc Val :=
  match Val.getItem network "network" with
  | .error e => .error e
  | .ok n =>
      match Val.getItem n "id" with
      | .error e => .error e
      | .ok nid =>
          match svc_get_network nid kwargs with
          | .error e => .error e
          | .ok net => .ok (Val.dict [("network", net)])

/-- `NeutronScenario._create_subnet`: pops `"name"` from the caller's
`subnet_create_args`, assigns `"network_id" := network["network"]["id"]`
and `"start_cidr" := start_cidr` into it, forwards it to
`neutron.create_subnet` and wraps the result as `{"subnet": ...}`.
Second component: the final state of the caller-owned
`subnet_create_args`. -/
def create_subnet (svc_create_subnet : Dict → Except Exc Val)
    (network : Val) (subnet_create_args : Dict) (start_cidr : Val) :
    Except Exc Val × Dict :=
  let args := Dict.erase subnet_create_args "name"
  match
    (match Val.getItem network "network" with
     | .error e => (.error e : Except Exc Val)
     | .ok n => Val.getItem n "id") with
  | .error e => (.error e, args)
  | .ok nid =>
      let args := Dict.insert args "network_id" nid
      let args := Dict.insert args "start_cidr" start_cidr
      match svc_create_subnet args with
      | .ok s => (.ok (Val.dict [("subnet", s)]), args)
      | .error e => (.error e, args)

/-- `NeutronScenario._update_subnet`: assigns a generated random name into
the caller's `subnet_update_args`, forwards
`neutron.update_subnet(subnet["subnet"]["id"], **subnet_update_args)` and
wraps the result as `{"subnet": ...}`. -/
def update_subnet (gen_name : String)
    (svc_update_subnet : Val → Dict → Except Exc Val)
    (subnet : Val) (subnet_update_args : Dict) : Except Exc Val × Dict :=
  let args := Dict.insert subnet_update_args "name" (Val.str gen_name)
  match
    (match Val.getItem subnet "subnet" with
     | .error e => (.error e : Except Exc Val)
     | .ok s =>
         match Val.getItem s "id" with
         | .error e => .error e
         | .ok sid => svc_update_subnet sid args) with
  | .ok s => (.ok (Val.dict [("subnet", s)]), args)
  | .error e => (.error e, args)

/-- `NeutronScenario._create_router`: pops `"name"` from the caller's
`router_create_args`; when `"tenant_id"` is present and `"project_id"` is
not, pops `"tenant_id"` and assigns its value to `"project_id"`; forwards
`neutron.create_router(discover_external_gw=external_gw, **args)` and
wraps the result as `{"router": ...}`.  Second component: the final state
of the caller-owned `router_create_args`. -/
def create_router (svc_create_router : Bool → Dict → Except Exc Val)
    (router_create_args : Dict) (external_gw : Bool) : Except Exc Val × Dict :=
  let args := Dict.erase router_create_args "name"
  let args :=
    if Dict.hasKey args "tenant_id" && !(Dict.hasKey args "project_id") then
      Dict.insert (Dict.erase args "tenant_id") "project_id"
        ((Dict.lookup args "tenant_id").getD Val.none)
    else args
  match svc_create_router external_gw args with
  | .ok r => (.ok (Val.dict [("router", r)]), args)
  | .error e => (.error e, args)

/-- `NeutronScenario._update_router`: assigns a generated random name into
the caller's `router_update_args`, forwards
`neutron.update_router(router["router"]["id"], **router_update_args)` and
wraps the result as `{"router": ...}`. -/
def update_router (gen_name : String)
    (svc_update_router : Val → Dict → Except Exc Val)
    (router : Val) (router_update_args : Dict) : Except Exc Val × Dict :=
  let args := Dict.insert router_update_args "name" (Val.str gen_name)
  match
    (match Val.getItem router "router" with
     | .error e => (.error e : Except Exc Val)
     | .ok r =>
         match Val.getItem r "id" with
         | .error e => .error e
         | .ok rid => svc_update_router rid args) with
  | .ok r => (.ok (Val.dict [("router", r)]), args)
  | .error e => (.error e, args)

/-- `NeutronScenario._update_port`: assigns a generated random name into
the caller's `port_update_args`, forwards
`neutron.update_port(port["port"]["id"], **port_update_args)` and wraps
the result as `{"port": ...}`. -/
def update_port (gen_name : String)
    (svc_update_port : Val → Dict → Except Exc Val)
    (port : Val) (port_update_args : Dict) : Except Exc Val × Dict :=
  let args := Dict.insert port_update_args "name" (Val.str gen_name)
  match
    (match Val.getItem port "port" with
     | .error e => (.error e : Except Exc Val)
     | .ok p =>
         match Val.getItem p "id" with
         | .error e => .error e
         | .ok pid => svc_update_port pid args) with
  | .ok p => (.ok (Val.dict [("port", p)]), args)
  | .error e => (.error e, args)

/-- `NeutronScenario._update_security_group`: assigns a generated random
name into the (fresh, keyword-built) `security_group_update_args`,
forwards `neutron.update_security_group(security_group["security_group"]["id"],
**args)` and wraps the result as `{"security_group": ...}`. -/
def update_security_group (gen_name : String)
    (svc_update_security_group : Val → Dict → Except Exc Val)
    (security_group : Val) (security_group_update_args : Dict) :
    Except Exc Val :=
  let args := Dict.insert security_group_update_args "name" (Val.str gen_name)
  match Val.getItem security_group "security_group" with
  | .error e => .error e
  | .ok sg =>
      match Val.getItem sg "id" with
      | .error e => .error e
      | .ok sgid =>
          match svc_update_security_group sgid args with
          | .error e => .error e
          | .ok r => .ok (Val.dict [("security_group", r)])

/-- `NeutronScenario._create_lb_pool`: builds the defaults
`{lb_method: LB_METHOD, protocol: LB_PROTOCOL, name: <generated>,
subnet_id: subnet_id}`, overrides them with `pool_create_args`
(`args.update(pool_create_args)`) and forwards
`create_pool({"pool": args})`. -/
def create_lb_pool (gen_name : String) (svc_create_pool : Dict → Except Exc Val)
    (subnet_id : Val) (pool_create_args : Dict) : Except Exc Val :=
  let args : Dict :=
    [("lb_method", Val.str LB_METHOD), ("protocol", Val.str LB_PROTOCOL),
     ("name", Val.str gen_name), ("subnet_id", subnet_id)]
  let args := Dict.updateWith args pool_create_args
  svc_create_pool [("pool", Val.dict args)]

/-- `NeutronScenario._create_v1_healthmonitor`: builds the defaults
`{type: HM_TYPE, delay: HM_DELAY, max_retries: HM_MAX_RETRIES,
timeout: HM_TIMEOUT}`, overrides them with `healthmonitor_create_args`
and forwards `create_health_monitor({"health_monitor": args})`. -/
def create_v1_healthmonitor (svc_create_health_monitor : Dict → Except Exc Val)
    (healthmonitor_create_args : Dict) : Except Exc Val :=
  let args : Dict :=
    [("type", Val.str HM_TYPE), ("delay", Val.num HM_DELAY),
     ("max_retries", Val.num HM_MAX_RETRIES), ("timeout", Val.num HM_TIMEOUT)]
  let args := Dict.updateWith args healthmonitor_create_args
  svc_create_health_monitor [("health_monitor", Val.dict args)]

/-- `NeutronScenario.update_loadbalancer_resource`: calls
`show_loadbalancer(lb["id"])` inside a `try` that catches every exception;
a caught exception whose `getattr(e, "status_code", 400)` is 404 becomes
`GetResourceNotFound(resource=lb)`, any other caught exception becomes
`GetResourceFailure(resource=lb, err=e)`; on success the `"loadbalancer"`
entry of the response is returned (outside the `try`). -/
def update_loadbalancer_resource (svc_show_loadbalancer : Val → Except Exc Val)
    (lb : Val) : Except Exc Val :=
  match
    (match Val.getItem lb "id" with
     | .error e => (.error e : Except Exc Val)
     | .ok lbid => svc_show_loadbalancer lbid) with
  | .error e =>
      if e.statusCodeAttr = 404 then .error (.getResourceNotFound lb)
      else .error (.getResourceFailure lb (some e))
  | .ok new_lb => Val.getItem new_lb "loadbalancer"

/-- Modelled from the spec: `rally.task.utils.wait_for_status`, the
generic wait utility supplied by the platform (it is not part of this
repository; the spec says the module "polls an external resource's status
field until it reaches a ready state or a timeout elapses, using a generic
wait-for-status utility supplied by the platform").  `fuel` is the number
of polls the configured timeout and check interval allow; each round reads
`status_attr` from the resource, returns the resource when the status is
among `ready_statuses`, and otherwise refreshes it with `update_resource`;
exhausted fuel is the elapsed timeout. -/
def wait_for_status : Nat → List String → String → (Val → Except Exc Val) →
    Val → Except Exc Val
  | 0, _, _, _, _ => .error .timeoutException
  | f + 1, ready_statuses, status_attr, update_resource, resource =>
      match Val.getItem resource status_attr with
      | .error e => .error e
      | .ok s =>
          if Val.inStrList s ready_statuses then .ok resource
          else
            match update_resource resource with
            | .error e => .error e
            | .ok r =>
                wait_for_status f ready_statuses status_attr update_resource r

/-- `NeutronScenario._create_lbaasv2_loadbalancer`: builds
`{name: <generated>, vip_subnet_id: subnet_id}` overridden by
`lb_create_args`, calls `create_loadbalancer({"loadbalancer": args})`,
unwraps the `"loadbalancer"` entry, and waits for
`provisioning_status` to reach `"ACTIVE"` via `wait_for_status` with
`update_loadbalancer_resource` as the refresh function, returning the
waited-on load balancer unwrapped. -/
def create_lbaasv2_loadbalancer (gen_name : String)
    (svc_create_loadbalancer : Dict → Except Exc Val)
    (svc_show_loadbalancer : Val → Except Exc Val) (fuel : Nat)
    (subnet_id : Val) (lb_create_args : Dict) : Except Exc Val :=
  let args : Dict := [("name", Val.str gen_name), ("vip_subnet_id", subnet_id)]
  let args := Dict.updateWith args lb_create_args
  match svc_create_loadbalancer [("loadbalancer", Val.dict args)] with
  | .error e => .error e
  | .ok lb =>
      match Val.getItem lb "loadbalancer" with
      | .error e => .error e
      | .ok lb =>
          wait_for_status fuel ["ACTIVE"] "provisioning_status"
            (update_loadbalancer_resource svc_show_loadbalancer) lb

/-- `NeutronScenario._update_bgpvpn`: when `update_name` is true or
`"name"` occurs in `kwargs`, assigns a generated random name into the
(fresh, keyword-built) `kwargs`; forwards
`update_bgpvpn(bgpvpn["bgpvpn"]["id"], {"bgpvpn": kwargs})`. -/
def update_bgpvpn (gen_name : String)
    (svc_update_bgpvpn : Val → Dict → Except Exc Val)
    (bgpvpn : Val) (update_name : Bool) (kwargs : Dict) : Except Exc Val :=
  let kwargs :=
    if update_name || Dict.hasKey kwargs "name" then
      Dict.insert kwargs "name" (Val.str gen_name)
    else kwargs
  match Val.getItem bgpvpn "bgpvpn" with
  | .error e => .error e
  | .ok b =>
      match Val.getItem b "id" with
      | .error e => .error e
      | .ok bid => svc_update_bgpvpn bid [("bgpvpn", Val.dict kwargs)]

end NeutronScenario

namespace NeutronBaseScenario

/-- `NeutronBaseScenario._get_or_create_network`: when the tenant context
has a `"networks"` entry, returns `networks[iteration % len(networks)]`
(Python raises `ZeroDivisionError` for `% 0` when the list is empty);
otherwise calls `neutron.create_network(**network_create_args)`.  The
second component records whether `create_network` was called. -/
def get_or_create_network (svc_create_network : Dict → Except Exc Val)
    (tenant : Dict) (iteration : Nat) (network_create_args : Dict) :
    Except Exc Val × Bool :=
  match Dict.lookup tenant "networks" with
  | some (Val.list networks) =>
      if networks.length = 0 then (.error .zeroDivisionError, false)
      else (.ok (networks.getD (iteration % networks.length) Val.none), false)
  | some _ => (.error (.typeError "object has no len()"), false)
  | Option.none => (svc_create_network network_create_args, true)

end NeutronBaseScenario

/- ### Claim theorems -/

/-- C1: for every network name/id argument, `_get_network_id` returns the
`"id"` field of the network located by `neutron.find_network`; it raises
the framework's `NotFoundException` with message
`"Network <network> not found."` exactly when `find_network` raises
`GetResourceFailure`, and any other exception type from `find_network`
propagates untranslated. -/
theorem get_network_id_spec (find_network : String → Except Exc Val)
    (network : String) :
    (∀ d v, find_network network = .ok d → Val.getItem d "id" = .ok v →
      NeutronScenario.get_network_id find_network network = .ok v) ∧
    (∀ e, find_network network = .error e →
      e.isGetResourceFailureClass = true →
      NeutronScenario.get_network_id find_network network =
        .error (.notFoundException ("Network " ++ network ++ " not found."))) ∧
    (∀ e, find_network network = .error e →
      e.isGetResourceFailureClass = false →
      NeutronScenario.get_network_id find_network network = .error e) := by
  refine ⟨fun d v h1 h2 => ?_, fun e h1 h2 => ?_, fun e h1 h2 => ?_⟩
  · simp [NeutronScenario.get_network_id, h1, h2]
  · simp [NeutronScenario.get_network_id, h1, h2]
  · simp [NeutronScenario.get_network_id, h1, h2]

/-- Witness for C1: concrete lookups exercising all three branches of
`get_network_id_spec`. -/
theorem get_network_id_spec_witness :
    NeutronScenario.get_network_id
      (fun _ => .ok (Val.dict [("id", Val.str "n-1")])) "netA" =
        .ok (Val.str "n-1") ∧
    NeutronScenario.get_network_id
      (fun _ => .error (.getResourceFailure Val.none Option.none)) "netA" =
        .error (.notFoundException "Network netA not found.") ∧
    NeutronScenario.get_network_id
      (fun _ => .error (.apiError (some 500) "boom")) "netA" =
        .error (.apiError (some 500) "boom") :=
  ⟨(get_network_id_spec
      (fun _ => .ok (Val.dict [("id", Val.str "n-1")])) "netA").1
      (Val.dict [("id", Val.str "n-1")]) (Val.str "n-1") rfl rfl,
   (get_network_id_spec
      (fun _ => .error (.getResourceFailure Val.none Option.none)) "netA").2.1
      (.getResourceFailure Val.none Option.none) rfl rfl,
   (get_network_id_spec
      (fun _ => .error (.apiError (some 500) "boom")) "netA").2.2
      (.apiError (some 500) "boom") rfl rfl⟩

/-- C3: `_create_network`, `_update_network` and `_show_network` each
return the single-key mapping `{"network": r}` where `r` is exactly the
value returned by the corresponding service call (`create_network`,
`update_network`, `get_network`); no other key is present in the
mapping. -/
theorem wrap_network_result_spec (svc_create : Dict → Except Exc Val)
    (svc_update svc_get : Val → Dict → Except Exc Val) (gen_name : String)
    (network : Val) (cargs uargs kwargs : Dict) :
    (∀ r, svc_create (Dict.erase cargs "name") = .ok r →
      (NeutronScenario.create_network svc_create cargs).1 =
        .ok (Val.dict [("network", r)])) ∧
    (∀ n nid r, Val.getItem network "network" = .ok n →
      Val.getItem n "id" = .ok nid →
      svc_update nid (Dict.insert uargs "name" (Val.str gen_name)) = .ok r →
      (NeutronScenario.update_network gen_name svc_update network uargs).1 =
        .ok (Val.dict [("network", r)])) ∧
    (∀ n nid r, Val.getItem network "network" = .ok n →
      Val.getItem n "id" = .ok nid → svc_get nid kwargs = .ok r →
      NeutronScenario.show_network svc_get network kwargs =
        .ok (Val.dict [("network", r)])) ∧
    (∀ r k, k ≠ "network" → Dict.lookup [("network", r)] k = Option.none) := by
  refine ⟨fun r h => ?_, fun n nid r h1 h2 h3 => ?_,
    fun n nid r h1 h2 h3 => ?_, fun r k hk => ?_⟩
  · simp [NeutronScenario.create_network, h]
  · simp [NeutronScenario.update_network, h1, h2, h3]
  · simp [NeutronScenario.show_network, h1, h2, h3]
  · simp [Dict.lookup, Ne.symm hk]

/-- Witness for C3: concrete network object and service results. -/
theorem wrap_network_result_spec_witness :
    (NeutronScenario.create_network (fun _ => .ok (Val.str "raw-net"))
      [("admin_state_up", Val.bool true)]).1 =
        .ok (Val.dict [("network", Val.str "raw-net")]) ∧
    (NeutronScenario.update_network "rname" (fun _ _ => .ok (Val.str "upd-net"))
      (Val.dict [("network", Val.dict [("id", Val.str "n-1")])]) []).1 =
        .ok (Val.dict [("network", Val.str "upd-net")]) ∧
    NeutronScenario.show_network (fun _ _ => .ok (Val.str "shown-net"))
      (Val.dict [("network", Val.dict [("id", Val.str "n-1")])]) [] =
        .ok (Val.dict [("network", Val.str "shown-net")]) ∧
    Dict.lookup [("network", Val.str "raw-net")] "subnet" = Option.none :=
  ⟨(wrap_network_result_spec (fun _ => .ok (Val.str "raw-net"))
      (fun _ _ => .ok Val.none) (fun _ _ => .ok Val.none) "rname" Val.none
      [("admin_state_up", Val.bool true)] [] []).1 (Val.str "raw-net") rfl,
   (wrap_network_result_spec (fun _ => .ok Val.none)
      (fun _ _ => .ok (Val.str "upd-net")) (fun _ _ => .ok Val.none) "rname"
      (Val.dict [("network", Val.dict [("id", Val.str "n-1")])])
      [] [] []).2.1 (Val.dict [("id", Val.str "n-1")]) (Val.str "n-1")
      (Val.str "upd-net") rfl rfl rfl,
   (wrap_network_result_spec (fun _ => .ok Val.none) (fun _ _ => .ok Val.none)
      (fun _ _ => .ok (Val.str "shown-net")) "rname"
      (Val.dict [("network", Val.dict [("id", Val.str "n-1")])])
      [] [] []).2.2.1 (Val.dict [("id", Val.str "n-1")]) (Val.str "n-1")
      (Val.str "shown-net") rfl rfl rfl,
   (wrap_network_result_spec (fun _ => .ok Val.none) (fun _ _ => .ok Val.none)
      (fun _ _ => .ok Val.none) "rname" Val.none [] [] []).2.2.2
      (Val.str "raw-net") "subnet" (by decide)⟩

/-- C4: `_update_subnet`, `_update_router`, `_update_port` and
`_update_security_group` each assign a freshly generated random name as
the `"name"` option before forwarding the update to the service, and the
assignment overrides any caller-supplied `"name"` value: the forwarded
dictionary is `args["name"] := gen_name`, whose `"name"` entry is the
generated name whatever the caller passed. -/
theorem update_name_overriding_spec (gen_name : String)
    (svc_us svc_ur svc_up svc_usg : Val → Dict → Except Exc Val)
    (subnet router port security_group : Val)
    (sargs rargs pargs gargs : Dict) :
    (∀ s sid, Val.getItem subnet "subnet" = .ok s →
      Val.getItem s "id" = .ok sid →
      (NeutronScenario.update_subnet gen_name svc_us subnet sargs).1 =
        Except.map (fun x => Val.dict [("subnet", x)])
          (svc_us sid (Dict.insert sargs "name" (Val.str gen_name)))) ∧
    (∀ r rid, Val.getItem router "router" = .ok r →
      Val.getItem r "id" = .ok rid →
      (NeutronScenario.update_router gen_name svc_ur router rargs).1 =
        Except.map (fun x => Val.dict [("router", x)])
          (svc_ur rid (Dict.insert rargs "name" (Val.str gen_name)))) ∧
    (∀ p pid, Val.getItem port "port" = .ok p →
      Val.getItem p "id" = .ok pid →
      (NeutronScenario.update_port gen_name svc_up port pargs).1 =
        Except.map (fun x => Val.dict [("port", x)])
          (svc_up pid (Dict.insert pargs "name" (Val.str gen_name)))) ∧
    (∀ sg sgid, Val.getItem security_group "security_group" = .ok sg →
      Val.getItem sg "id" = .ok sgid →
      NeutronScenario.update_security_group gen_name svc_usg security_group
          gargs =
        Except.map (fun x => Val.dict [("security_group", x)])
          (svc_usg sgid (Dict.insert gargs "name" (Val.str gen_name)))) ∧
    (∀ d : Dict, Dict.lookup (Dict.insert d "name" (Val.str gen_name))
      "name" = some (Val.str gen_name)) := by
  refine ⟨fun s sid h1 h2 => ?_, fun r rid h1 h2 => ?_,
    fun p pid h1 h2 => ?_, fun sg sgid h1 h2 => ?_,
    fun d => Dict.lookup_insert_self d "name" (Val.str gen_name)⟩
  · cases h3 : svc_us sid (Dict.insert sargs "name" (Val.str gen_name)) <;>
      simp [NeutronScenario.update_subnet, h1, h2, h3, Except.map]
  · cases h3 : svc_ur rid (Dict.insert rargs "name" (Val.str gen_name)) <;>
      simp [NeutronScenario.update_router, h1, h2, h3, Except.map]
  · cases h3 : svc_up pid (Dict.insert pargs "name" (Val.str gen_name)) <;>
      simp [NeutronScenario.update_port, h1, h2, h3, Except.map]
  · cases h3 : svc_usg sgid (Dict.insert gargs "name" (Val.str gen_name)) <;>
      simp [NeutronScenario.update_security_group, h1, h2, h3, Except.map]

/-- Witness for C4: concrete resources, with a caller-supplied `"name"`
that the methods override. -/
theorem update_name_overriding_spec_witness :
    (NeutronScenario.update_subnet "rname" (fun _ d => .ok (Val.dict d))
      (Val.dict [("subnet", Val.dict [("id", Val.str "s-1")])])
      [("name", Val.str "mine")]).1 =
      .ok (Val.dict [("subnet",
        Val.dict [("name", Val.str "rname")])]) ∧
    Dict.lookup (Dict.insert [("name", Val.str "mine")] "name"
      (Val.str "rname")) "name" = some (Val.str "rname") := by
  constructor
  · have h := (update_name_overriding_spec "rname"
      (fun _ d => .ok (Val.dict d)) (fun _ _ => .ok Val.none)
      (fun _ _ => .ok Val.none) (fun _ _ => .ok Val.none)
      (Val.dict [("subnet", Val.dict [("id", Val.str "s-1")])])
      Val.none Val.none Val.none
      [("name", Val.str "mine")] [] [] []).1
      (Val.dict [("id", Val.str "s-1")]) (Val.str "s-1") rfl rfl
    rw [h]; rfl
  · exact (update_name_overriding_spec "rname"
      (fun _ d => .ok (Val.dict d)) (fun _ _ => .ok Val.none)
      (fun _ _ => .ok Val.none) (fun _ _ => .ok Val.none)
      Val.none Val.none Val.none Val.none [] [] [] []).2.2.2.2
      [("name", Val.str "mine")]

/-- C5: `_create_network` removes any caller-supplied `"name"` key from
`network_create_args` before forwarding to `create_network` (no generated
name is injected at this layer), and `_create_subnet` forwards subnet
options in which `"name"` is removed, `"network_id"` is
`network["network"]["id"]` and `"start_cidr"` is the supplied `start_cidr`
argument. -/
theorem create_forward_args_spec (svc_cn svc_cs : Dict → Except Exc Val)
    (network n nid : Val) (cargs sargs : Dict) (start_cidr : Val)
    (hn : Val.getItem network "network" = .ok n)
    (hid : Val.getItem n "id" = .ok nid) :
    ((NeutronScenario.create_network svc_cn cargs).1 =
       Except.map (fun net => Val.dict [("network", net)])
         (svc_cn (Dict.erase cargs "name")) ∧
     Dict.lookup (Dict.erase cargs "name") "name" = Option.none ∧
     (∀ k, k ≠ "name" →
       Dict.lookup (Dict.erase cargs "name") k = Dict.lookup cargs k)) ∧
    ((NeutronScenario.create_subnet svc_cs network sargs start_cidr).1 =
       Except.map (fun s => Val.dict [("subnet", s)])
         (svc_cs (Dict.insert (Dict.insert (Dict.erase sargs "name")
           "network_id" nid) "start_cidr" start_cidr)) ∧
     Dict.lookup (Dict.insert (Dict.insert (Dict.erase sargs "name")
       "network_id" nid) "start_cidr" start_cidr) "name" = Option.none ∧
     Dict.lookup (Dict.insert (Dict.insert (Dict.erase sargs "name")
       "network_id" nid) "start_cidr" start_cidr) "network_id" = some nid ∧
     Dict.lookup (Dict.insert (Dict.insert (Dict.erase sargs "name")
       "network_id" nid) "start_cidr" start_cidr) "start_cidr" =
         some start_cidr) := by
  refine ⟨⟨?_, Dict.lookup_erase_self cargs "name",
      fun k hk => Dict.lookup_erase_ne cargs "name" k (Ne.symm hk)⟩,
    ⟨?_, ?_, ?_, Dict.lookup_insert_self _ "start_cidr" start_cidr⟩⟩
  · cases h : svc_cn (Dict.erase cargs "name") <;>
      simp [NeutronScenario.create_network, h, Except.map]
  · cases h : svc_cs (Dict.insert (Dict.insert (Dict.erase sargs "name")
      "network_id" nid) "start_cidr" start_cidr) <;>
      simp [NeutronScenario.create_subnet, hn, hid, h, Except.map]
  · rw [Dict.lookup_insert_ne _ "start_cidr" "name" _ (by decide),
      Dict.lookup_insert_ne _ "network_id" "name" _ (by decide),
      Dict.lookup_erase_self]
  · rw [Dict.lookup_insert_ne _ "start_cidr" "network_id" _ (by decide),
      Dict.lookup_insert_self]

/-- Witness for C5: a concrete network and caller-supplied `"name"` keys
that the create methods strip. -/
theorem create_forward_args_spec_witness :
    (NeutronScenario.create_network (fun d => .ok (Val.dict d))
      [("name", Val.str "mine"), ("mtu", Val.num 1450)]).1 =
      .ok (Val.dict [("network", Val.dict [("mtu", Val.num 1450)])]) ∧
    (NeutronScenario.create_subnet (fun d => .ok (Val.dict d))
      (Val.dict [("network", Val.dict [("id", Val.str "n-1")])])
      [("name", Val.str "mine")] (Val.str "1.0.0.0/24")).1 =
      .ok (Val.dict [("subnet", Val.dict
        [("network_id", Val.str "n-1"),
         ("start_cidr", Val.str "1.0.0.0/24")])]) := by
  have h := create_forward_args_spec (fun d => .ok (Val.dict d))
    (fun d => .ok (Val.dict d))
    (Val.dict [("network", Val.dict [("id", Val.str "n-1")])])
    (Val.dict [("id", Val.str "n-1")]) (Val.str "n-1")
    [("name", Val.str "mine"), ("mtu", Val.num 1450)]
    [("name", Val.str "mine")] (Val.str "1.0.0.0/24") rfl rfl
  exact ⟨by rw [h.1.1]; rfl, by rw [h.2.1]; rfl⟩

/-- C6: `_create_lb_pool` forwards a pool body defaulting
`lb_method = "ROUND_ROBIN"`, `protocol = "HTTP"`, `subnet_id` to the given
subnet id and `name` to a generated random name, with every key of
`pool_create_args` overriding the matching default; `_create_v1_healthmonitor`
forwards a health-monitor body defaulting `type = "PING"`, `delay = 20`,
`max_retries = 3`, `timeout = 10`, with caller-supplied keys overriding
the defaults. -/
theorem lb_defaults_spec (gen_name : String)
    (svc_cp svc_hm : Dict → Except Exc Val) (subnet_id : Val)
    (pca hma : Dict) (hwp : Dict.WF pca) (hwh : Dict.WF hma) :
    (∀ fwd, fwd = Dict.updateWith
        [("lb_method", Val.str NeutronScenario.LB_METHOD),
         ("protocol", Val.str NeutronScenario.LB_PROTOCOL),
         ("name", Val.str gen_name), ("subnet_id", subnet_id)] pca →
      NeutronScenario.create_lb_pool gen_name svc_cp subnet_id pca =
        svc_cp [("pool", Val.dict fwd)] ∧
      (∀ k v, Dict.lookup pca k = some v → Dict.lookup fwd k = some v) ∧
      (Dict.lookup pca "lb_method" = Option.none →
        Dict.lookup fwd "lb_method" = some (Val.str "ROUND_ROBIN")) ∧
      (Dict.lookup pca "protocol" = Option.none →
        Dict.lookup fwd "protocol" = some (Val.str "HTTP")) ∧
      (Dict.lookup pca "name" = Option.none →
        Dict.lookup fwd "name" = some (Val.str gen_name)) ∧
      (Dict.lookup pca "subnet_id" = Option.none →
        Dict.lookup fwd "subnet_id" = some subnet_id)) ∧
    (∀ fwd, fwd = Dict.updateWith
        [("type", Val.str NeutronScenario.HM_TYPE),
         ("delay", Val.num NeutronScenario.HM_DELAY),
         ("max_retries", Val.num NeutronScenario.HM_MAX_RETRIES),
         ("timeout", Val.num NeutronScenario.HM_TIMEOUT)] hma →
      NeutronScenario.create_v1_healthmonitor svc_hm hma =
        svc_hm [("health_monitor", Val.dict fwd)] ∧
      (∀ k v, Dict.lookup hma k = some v → Dict.lookup fwd k = some v) ∧
      (Dict.lookup hma "type" = Option.none →
        Dict.lookup fwd "type" = some (Val.str "PING")) ∧
      (Dict.lookup hma "delay" = Option.none →
        Dict.lookup fwd "delay" = some (Val.num 20)) ∧
      (Dict.lookup hma "max_retries" = Option.none →
        Dict.lookup fwd "max_retries" = some (Val.num 3)) ∧
      (Dict.lookup hma "timeout" = Option.none →
        Dict.lookup fwd "timeout" = some (Val.num 10))) := by
  constructor
  · rintro fwd rfl
    refine ⟨rfl, fun k v h => ?_, fun h => ?_, fun h => ?_, fun h => ?_,
      fun h => ?_⟩
    · rw [Dict.lookup_updateWith _ _ hwp k, h]
    · rw [Dict.lookup_updateWith _ _ hwp _, h]; rfl
    · rw [Dict.lookup_updateWith _ _ hwp _, h]; rfl
    · rw [Dict.lookup_updateWith _ _ hwp _, h]; rfl
    · rw [Dict.lookup_updateWith _ _ hwp _, h]; rfl
  · rintro fwd rfl
    refine ⟨rfl, fun k v h => ?_, fun h => ?_, fun h => ?_, fun h => ?_,
      fun h => ?_⟩
    · rw [Dict.lookup_updateWith _ _ hwh k, h]
    · rw [Dict.lookup_updateWith _ _ hwh _, h]; rfl
    · rw [Dict.lookup_updateWith _ _ hwh _, h]; rfl
    · rw [Dict.lookup_updateWith _ _ hwh _, h]; rfl
    · rw [Dict.lookup_updateWith _ _ hwh _, h]; rfl

/-- Witness for C6: one overridden key and the remaining defaults, for the
pool and the health monitor. -/
theorem lb_defaults_spec_witness :
    NeutronScenario.create_lb_pool "rname" (fun d => .ok (Val.dict d))
      (Val.str "sub-1") [("protocol", Val.str "TCP")] =
      .ok (Val.dict [("pool", Val.dict
        [("lb_method", Val.str "ROUND_ROBIN"), ("protocol", Val.str "TCP"),
         ("name", Val.str "rname"), ("subnet_id", Val.str "sub-1")])]) ∧
    NeutronScenario.create_v1_healthmonitor (fun d => .ok (Val.dict d))
      [("delay", Val.num 5)] =
      .ok (Val.dict [("health_monitor", Val.dict
        [("type", Val.str "PING"), ("delay", Val.num 5),
         ("max_retries", Val.num 3), ("timeout", Val.num 10)])]) := by
  have h := lb_defaults_spec "rname" (fun d => .ok (Val.dict d))
    (fun d => .ok (Val.dict d)) (Val.str "sub-1")
    [("protocol", Val.str "TCP")] [("delay", Val.num 5)]
    (by simp [Dict.WF, Dict.keys]) (by simp [Dict.WF, Dict.keys])
  exact ⟨by rw [(h.1 _ rfl).1]; rfl, by rw [(h.2 _ rfl).1]; rfl⟩

/-- C7: `_create_lbaasv2_loadbalancer` creates a load balancer whose
`name` defaults to a generated random name and whose `vip_subnet_id`
defaults to the given subnet id (both overridable via `lb_create_args`),
hands the unwrapped `"loadbalancer"` value to the platform wait utility,
which polls `provisioning_status` until it is `"ACTIVE"` (refreshing
through `update_loadbalancer_resource`) or the allotted polls (the
configured timeout over the poll interval) run out, and the waited-on
load balancer is returned unwrapped. -/
theorem create_lbaasv2_loadbalancer_spec (gen_name : String)
    (svc_cl : Dict → Except Exc Val) (svc_sl : Val → Except Exc Val)
    (fuel : Nat) (subnet_id : Val) (lbca : Dict) (hwf : Dict.WF lbca) :
    (∀ args, args = Dict.updateWith
        [("name", Val.str gen_name), ("vip_subnet_id", subnet_id)] lbca →
      ((Dict.lookup lbca "name" = Option.none →
         Dict.lookup args "name" = some (Val.str gen_name)) ∧
       (Dict.lookup lbca "vip_subnet_id" = Option.none →
         Dict.lookup args "vip_subnet_id" = some subnet_id) ∧
       (∀ k v, Dict.lookup lbca k = some v → Dict.lookup args k = some v)) ∧
      (∀ resp lb, svc_cl [("loadbalancer", Val.dict args)] = .ok resp →
        Val.getItem resp "loadbalancer" = .ok lb →
        NeutronScenario.create_lbaasv2_loadbalancer gen_name svc_cl svc_sl
            fuel subnet_id lbca =
          NeutronScenario.wait_for_status fuel ["ACTIVE"]
            "provisioning_status"
            (NeutronScenario.update_loadbalancer_resource svc_sl) lb)) ∧
    (∀ f r, Val.getItem r "provisioning_status" = .ok (Val.str "ACTIVE") →
      NeutronScenario.wait_for_status (f + 1) ["ACTIVE"]
        "provisioning_status"
        (NeutronScenario.update_loadbalancer_resource svc_sl) r = .ok r) ∧
    (∀ f r st r', Val.getItem r "provisioning_status" = .ok (Val.str st) →
      st ≠ "ACTIVE" →
      NeutronScenario.update_loadbalancer_resource svc_sl r = .ok r' →
      NeutronScenario.wait_for_status (f + 1) ["ACTIVE"]
        "provisioning_status"
        (NeutronScenario.update_loadbalancer_resource svc_sl) r =
      NeutronScenario.wait_for_status f ["ACTIVE"] "provisioning_status"
        (NeutronScenario.update_loadbalancer_resource svc_sl) r') ∧
    (∀ r, NeutronScenario.wait_for_status 0 ["ACTIVE"]
      "provisioning_status"
      (NeutronScenario.update_loadbalancer_resource svc_sl) r =
      .error .timeoutException) := by
  refine ⟨?_, fun f r h => ?_, fun f r st r' h1 h2 h3 => ?_, fun r => rfl⟩
  · rintro args rfl
    refine ⟨⟨fun h => ?_, fun h => ?_, fun k v h => ?_⟩,
      fun resp lb h1 h2 => ?_⟩
    · rw [Dict.lookup_updateWith _ _ hwf _, h]; rfl
    · rw [Dict.lookup_updateWith _ _ hwf _, h]; rfl
    · rw [Dict.lookup_updateWith _ _ hwf k, h]
    · simp [NeutronScenario.create_lbaasv2_loadbalancer, h1, h2]
  · simp [NeutronScenario.wait_for_status, h, Val.inStrList]
  · simp [NeutronScenario.wait_for_status, h1, h2, h3, Val.inStrList]

/-- Witness for C7: a load balancer that needs one refresh before it
reports `ACTIVE`, driven through the claim's conjuncts. -/
theorem create_lbaasv2_loadbalancer_spec_witness :
    NeutronScenario.create_lbaasv2_loadbalancer "rname"
      (fun _ => .ok (Val.dict [("loadbalancer",
        Val.dict [("id", Val.str "lb-1"),
                  ("provisioning_status", Val.str "PENDING_CREATE")])]))
      (fun _ => .ok (Val.dict [("loadbalancer",
        Val.dict [("id", Val.str "lb-1"),
                  ("provisioning_status", Val.str "ACTIVE")])]))
      2 (Val.str "sub-1") [] =
    .ok (Val.dict [("id", Val.str "lb-1"),
                   ("provisioning_status", Val.str "ACTIVE")]) := by
  have h := create_lbaasv2_loadbalancer_spec "rname"
    (fun _ => .ok (Val.dict [("loadbalancer",
      Val.dict [("id", Val.str "lb-1"),
                ("provisioning_status", Val.str "PENDING_CREATE")])]))
    (fun _ => .ok (Val.dict [("loadbalancer",
      Val.dict [("id", Val.str "lb-1"),
                ("provisioning_status", Val.str "ACTIVE")])]))
    2 (Val.str "sub-1") [] (by simp [Dict.WF, Dict.keys])
  rw [(h.1 _ rfl).2
      (Val.dict [("loadbalancer",
        Val.dict [("id", Val.str "lb-1"),
                  ("provisioning_status", Val.str "PENDING_CREATE")])])
      (Val.dict [("id", Val.str "lb-1"),
                 ("provisioning_status", Val.str "PENDING_CREATE")]) rfl rfl,
    h.2.2.1 1
      (Val.dict [("id", Val.str "lb-1"),
                 ("provisioning_status", Val.str "PENDING_CREATE")])
      "PENDING_CREATE"
      (Val.dict [("id", Val.str "lb-1"),
                 ("provisioning_status", Val.str "ACTIVE")])
      rfl (by decide) rfl]
  exact h.2.1 0
    (Val.dict [("id", Val.str "lb-1"),
               ("provisioning_status", Val.str "ACTIVE")]) rfl

/-- C8: when the tenant context has a `"networks"` entry,
`NeutronBaseScenario._get_or_create_network` returns the element at index
`iteration % len(networks)` and never calls `create_network` (the `false`
flag); on an empty list the modulo is a division by zero, so the method
fails with `ZeroDivisionError` instead of creating a network. -/
theorem get_or_create_network_spec (svc : Dict → Except Exc Val)
    (tenant : Dict) (iteration : Nat) (args : Dict) (networks : List Val)
    (h : Dict.lookup tenant "networks" = some (Val.list networks)) :
    (networks ≠ [] →
      NeutronBaseScenario.get_or_create_network svc tenant iteration args =
        (.ok (networks.getD (iteration % networks.length) Val.none),
         false)) ∧
    (networks = [] →
      NeutronBaseScenario.get_or_create_network svc tenant iteration args =
        (.error .zeroDivisionError, false)) := by
  constructor
  · intro hne
    have hlen : ¬ networks.length = 0 :=
      fun h0 => hne (List.length_eq_zero.mp h0)
    simp [NeutronBaseScenario.get_or_create_network, h, hlen]
  · rintro rfl
    simp [NeutronBaseScenario.get_or_create_network, h]

/-- Witness for C8: a two-network context at iteration 3, and the empty
`"networks"` list. -/
theorem get_or_create_network_spec_witness :
    NeutronBaseScenario.get_or_create_network (fun _ => .ok Val.none)
      [("networks", Val.list [Val.str "a", Val.str "b"])] 3 [] =
      (.ok (Val.str "b"), false) ∧
    NeutronBaseScenario.get_or_create_network (fun _ => .ok Val.none)
      [("networks", Val.list [])] 3 [] =
      (.error .zeroDivisionError, false) := by
  constructor
  · have h := (get_or_create_network_spec (fun _ => .ok Val.none)
      [("networks", Val.list [Val.str "a", Val.str "b"])] 3 []
      [Val.str "a", Val.str "b"] rfl).1 (List.cons_ne_nil _ _)
    rw [h]; rfl
  · exact (get_or_create_network_spec (fun _ => .ok Val.none)
      [("networks", Val.list [])] 3 [] [] rfl).2 rfl

/-- C2 counterexample: the claim says every non-404 error from
`show_loadbalancer` propagates unchanged to the caller.  At this concrete
input `show_loadbalancer` raises an error with `status_code = 500`, and
`update_loadbalancer_resource` returns it wrapped inside
`GetResourceFailure(resource=lb, err=e)` rather than unchanged. -/
theorem update_loadbalancer_resource_wraps_non404 :
    NeutronScenario.update_loadbalancer_resource
      (fun _ => .error (.apiError (some 500) "server error"))
      (Val.dict [("id", Val.str "lb-1")]) =
      .error (.getResourceFailure (Val.dict [("id", Val.str "lb-1")])
        (some (.apiError (some 500) "server error"))) ∧
    NeutronScenario.update_loadbalancer_resource
      (fun _ => .error (.apiError (some 500) "server error"))
      (Val.dict [("id", Val.str "lb-1")]) ≠
      .error (.apiError (some 500) "server error") := by
  have h1 : NeutronScenario.update_loadbalancer_resource
      (fun _ => .error (.apiError (some 500) "server error"))
      (Val.dict [("id", Val.str "lb-1")]) =
      .error (.getResourceFailure (Val.dict [("id", Val.str "lb-1")])
        (some (.apiError (some 500) "server error"))) := rfl
  refine ⟨h1, fun h => ?_⟩
  rw [h1] at h
  simp at h

/-- C2 (amended): `update_loadbalancer_resource` raises the framework's
`GetResourceNotFound` exactly when `show_loadbalancer` raises an exception
whose `status_code` (defaulting to 400 when absent) is 404; every other
exception from the wrapped API is caught and re-raised wrapped as
`GetResourceFailure` carrying the resource and the original error, not
propagated unchanged; on success it returns the `"loadbalancer"` value of
the response. -/
theorem update_loadbalancer_resource_spec
    (svc_sl : Val → Except Exc Val) (lb lbid : Val)
    (hid : Val.getItem lb "id" = .ok lbid) :
    (∀ e, svc_sl lbid = .error e → e.statusCodeAttr = 404 →
      NeutronScenario.update_loadbalancer_resource svc_sl lb =
        .error (.getResourceNotFound lb)) ∧
    (∀ e, svc_sl lbid = .error e → e.statusCodeAttr ≠ 404 →
      NeutronScenario.update_loadbalancer_resource svc_sl lb =
        .error (.getResourceFailure lb (some e))) ∧
    (∀ resp v, svc_sl lbid = .ok resp →
      Val.getItem resp "loadbalancer" = .ok v →
      NeutronScenario.update_loadbalancer_resource svc_sl lb = .ok v) := by
  refine ⟨fun e h1 h2 => ?_, fun e h1 h2 => ?_, fun resp v h1 h2 => ?_⟩
  · simp [NeutronScenario.update_loadbalancer_resource, hid, h1, h2]
  · simp [NeutronScenario.update_loadbalancer_resource, hid, h1, h2]
  · simp [NeutronScenario.update_loadbalancer_resource, hid, h1, h2]

/-- Witness for C2 (amended): the 404, non-404 and success branches at
concrete inputs. -/
theorem update_loadbalancer_resource_spec_witness :
    NeutronScenario.update_loadbalancer_resource
      (fun _ => .error (.apiError (some 404) "not found"))
      (Val.dict [("id", Val.str "lb-1")]) =
      .error (.getResourceNotFound (Val.dict [("id", Val.str "lb-1")])) ∧
    NeutronScenario.update_loadbalancer_resource
      (fun _ => .error (.apiError Option.none "bad request"))
      (Val.dict [("id", Val.str "lb-1")]) =
      .error (.getResourceFailure (Val.dict [("id", Val.str "lb-1")])
        (some (.apiError Option.none "bad request"))) ∧
    NeutronScenario.update_loadbalancer_resource
      (fun _ => .ok (Val.dict [("loadbalancer", Val.str "the-lb")]))
      (Val.dict [("id", Val.str "lb-1")]) = .ok (Val.str "the-lb") :=
  ⟨(update_loadbalancer_resource_spec
      (fun _ => .error (.apiError (some 404) "not found"))
      (Val.dict [("id", Val.str "lb-1")]) (Val.str "lb-1") rfl).1
      (.apiError (some 404) "not found") rfl rfl,
   (update_loadbalancer_resource_spec
      (fun _ => .error (.apiError Option.none "bad request"))
      (Val.dict [("id", Val.str "lb-1")]) (Val.str "lb-1") rfl).2.1
      (.apiError Option.none "bad request") rfl (by decide),
   (update_loadbalancer_resource_spec
      (fun _ => .ok (Val.dict [("loadbalancer", Val.str "the-lb")]))
      (Val.dict [("id", Val.str "lb-1")]) (Val.str "lb-1") rfl).2.2
      (Val.dict [("loadbalancer", Val.str "the-lb")]) (Val.str "the-lb")
      rfl rfl⟩

/-- C9 counterexample: the claim ends "after the call the caller-owned
dict differs from what was passed in".  Here `_create_subnet` is called
with a `subnet_create_args` that already holds the derived `network_id`
and the supplied `start_cidr` and has no `"name"`; the deletion and both
insertions leave the dictionary exactly as it was passed in. -/
theorem create_subnet_args_can_be_unchanged :
    (NeutronScenario.create_subnet (fun _ => .ok Val.none)
      (Val.dict [("network", Val.dict [("id", Val.str "n-1")])])
      [("network_id", Val.str "n-1"), ("start_cidr", Val.str "1.0.0.0/24")]
      (Val.str "1.0.0.0/24")).2 =
    [("network_id", Val.str "n-1"), ("start_cidr", Val.str "1.0.0.0/24")] :=
  rfl

/-- C9 (amended): the methods mutate the caller's argument dictionary in
place rather than copying it: `_create_subnet` deletes `"name"` and
inserts `"network_id"` and `"start_cidr"` into `subnet_create_args`,
`_update_network` inserts the generated `"name"` into
`network_update_args`, and `_create_router` deletes `"name"` and, when
`"tenant_id"` is present without `"project_id"`, replaces the
`"tenant_id"` key with `"project_id"` holding the same value — so after
the call the caller-owned dict reflects these changes (it differs from
what was passed in unless the deletions and insertions coincide with its
existing contents). -/
theorem argument_dict_mutation_spec (gen_name : String)
    (svc_cs : Dict → Except Exc Val)
    (svc_un : Val → Dict → Except Exc Val)
    (svc_cr : Bool → Dict → Except Exc Val) (network : Val)
    (sargs uargs rargs : Dict) (start_cidr : Val) (external_gw : Bool) :
    (∀ n nid, Val.getItem network "network" = .ok n →
      Val.getItem n "id" = .ok nid →
      (NeutronScenario.create_subnet svc_cs network sargs start_cidr).2 =
        Dict.insert (Dict.insert (Dict.erase sargs "name") "network_id" nid)
          "start_cidr" start_cidr) ∧
    ((NeutronScenario.update_network gen_name svc_un network uargs).2 =
      Dict.insert uargs "name" (Val.str gen_name)) ∧
    (∀ tid, Dict.lookup (Dict.erase rargs "name") "tenant_id" = some tid →
      Dict.hasKey (Dict.erase rargs "name") "project_id" = false →
      (NeutronScenario.create_router svc_cr rargs external_gw).2 =
        Dict.insert (Dict.erase (Dict.erase rargs "name") "tenant_id")
          "project_id" tid) ∧
    (Dict.hasKey (Dict.erase rargs "name") "tenant_id" = false →
      (NeutronScenario.create_router svc_cr rargs external_gw).2 =
        Dict.erase rargs "name") := by
  refine ⟨fun n nid h1 h2 => ?_, ?_, fun tid h1 h2 => ?_, fun h1 => ?_⟩
  · cases h3 : svc_cs (Dict.insert (Dict.insert (Dict.erase sargs "name")
      "network_id" nid) "start_cidr" start_cidr) <;>
      simp [NeutronScenario.create_subnet, h1, h2, h3]
  · rcases hn : Val.getItem network "network" with e | n
    · simp [NeutronScenario.update_network, hn]
    · rcases hi : Val.getItem n "id" with e | nid
      · simp [NeutronScenario.update_network, hn, hi]
      · rcases hs : svc_un nid (Dict.insert uargs "name" (Val.str gen_name))
          with e | net
        · simp [NeutronScenario.update_network, hn, hi, hs]
        · simp [NeutronScenario.update_network, hn, hi, hs]
  · have hk : Dict.hasKey (Dict.erase rargs "name") "tenant_id" = true := by
      simp [Dict.hasKey, h1]
    cases h3 : svc_cr external_gw
        (Dict.insert (Dict.erase (Dict.erase rargs "name") "tenant_id")
          "project_id" tid) <;>
      simp [NeutronScenario.create_router, hk, h1, h2, h3]
  · cases h3 : svc_cr external_gw (Dict.erase rargs "name") <;>
      simp [NeutronScenario.create_router, h1, h3]

/-- Witness for C9 (amended): concrete calls showing each mutation,
including the `tenant_id` → `project_id` renaming. -/
theorem argument_dict_mutation_spec_witness :
    (NeutronScenario.create_subnet (fun _ => .ok Val.none)
      (Val.dict [("network", Val.dict [("id", Val.str "n-1")])])
      [("name", Val.str "mine")] (Val.str "1.0.0.0/24")).2 =
      [("network_id", Val.str "n-1"),
       ("start_cidr", Val.str "1.0.0.0/24")] ∧
    (NeutronScenario.update_network "rname" (fun _ _ => .ok Val.none)
      (Val.dict [("network", Val.dict [("id", Val.str "n-1")])])
      [("mtu", Val.num 1450)]).2 =
      [("mtu", Val.num 1450), ("name", Val.str "rname")] ∧
    (NeutronScenario.create_router (fun _ _ => .ok Val.none)
      [("name", Val.str "mine"), ("tenant_id", Val.str "t-1")] false).2 =
      [("project_id", Val.str "t-1")] := by
  have h := argument_dict_mutation_spec "rname" (fun _ => .ok Val.none)
    (fun _ _ => .ok Val.none) (fun _ _ => .ok Val.none)
    (Val.dict [("network", Val.dict [("id", Val.str "n-1")])])
    [("name", Val.str "mine")] [("mtu", Val.num 1450)]
    [("name", Val.str "mine"), ("tenant_id", Val.str "t-1")]
    (Val.str "1.0.0.0/24") false
  refine ⟨?_, ?_, ?_⟩
  · rw [h.1 (Val.dict [("id", Val.str "n-1")]) (Val.str "n-1") rfl rfl]; rfl
  · rw [h.2.1]; rfl
  · rw [h.2.2.1 (Val.str "t-1") rfl rfl]; rfl

/-- C10: `_update_bgpvpn` never forwards a caller-chosen name: when
`update_name` is true or `"name"` occurs in `kwargs`, the forwarded
`"name"` is the generated random name; otherwise no `"name"` key is
forwarded at all. -/
theorem update_bgpvpn_spec (gen_name : String)
    (svc : Val → Dict → Except Exc Val) (bgpvpn b bid : Val)
    (update_name : Bool) (kwargs : Dict)
    (hb : Val.getItem bgpvpn "bgpvpn" = .ok b)
    (hid : Val.getItem b "id" = .ok bid) :
    ∀ fwd, fwd = (if update_name || Dict.hasKey kwargs "name" then
        Dict.insert kwargs "name" (Val.str gen_name) else kwargs) →
      NeutronScenario.update_bgpvpn gen_name svc bgpvpn update_name kwargs =
        svc bid [("bgpvpn", Val.dict fwd)] ∧
      ((update_name = true ∨ Dict.hasKey kwargs "name" = true) →
        Dict.lookup fwd "name" = some (Val.str gen_name)) ∧
      (update_name = false → Dict.hasKey kwargs "name" = false →
        Dict.lookup fwd "name" = Option.none) := by
  rintro fwd rfl
  refine ⟨?_, fun hc => ?_, fun h1 h2 => ?_⟩
  · simp [NeutronScenario.update_bgpvpn, hb, hid]
  · have : (update_name || Dict.hasKey kwargs "name") = true := by
      rcases hc with h | h <;> simp [h]
    rw [if_pos this]
    exact Dict.lookup_insert_self kwargs "name" (Val.str gen_name)
  · rw [if_neg (by simp [h1, h2])]
    cases hl : Dict.lookup kwargs "name" with
    | none => rfl
    | some v => simp only [Dict.hasKey, hl] at h2; simp at h2

/-- Witness for C10: a caller-supplied `"name"` that gets replaced, and a
nameless update that forwards no `"name"`. -/
theorem update_bgpvpn_spec_witness :
    NeutronScenario.update_bgpvpn "rname" (fun _ d => .ok (Val.dict d))
      (Val.dict [("bgpvpn", Val.dict [("id", Val.str "b-1")])]) false
      [("name", Val.str "mine")] =
      .ok (Val.dict [("bgpvpn",
        Val.dict [("name", Val.str "rname")])]) ∧
    NeutronScenario.update_bgpvpn "rname" (fun _ d => .ok (Val.dict d))
      (Val.dict [("bgpvpn", Val.dict [("id", Val.str "b-1")])]) false
      [("x", Val.num 1)] =
      .ok (Val.dict [("bgpvpn", Val.dict [("x", Val.num 1)])]) := by
  constructor
  · have h := (update_bgpvpn_spec "rname" (fun _ d => .ok (Val.dict d))
      (Val.dict [("bgpvpn", Val.dict [("id", Val.str "b-1")])])
      (Val.dict [("id", Val.str "b-1")]) (Val.str "b-1") false
      [("name", Val.str "mine")] rfl rfl _ rfl).1
    rw [h]; rfl
  · have h := (update_bgpvpn_spec "rname" (fun _ d => .ok (Val.dict d))
      (Val.dict [("bgpvpn", Val.dict [("id", Val.str "b-1")])])
      (Val.dict [("id", Val.str "b-1")]) (Val.str "b-1") false
      [("x", Val.num 1)] rfl rfl _ rfl).1
    rw [h]; rfl
